import Mathlib

/-!
Verification of the `null` package's nullable string type (`src/string.go`).

The Go type `String` embeds `sql.NullString`, which is the pair of an
underlying string (Go field `String`) and a validity flag (Go field
`Valid`).  The embedding adds no data, so both are modelled by one Lean
structure `NullString` with fields `str` (Go `String`) and `valid`
(Go `Valid`).

Go byte slices (`[]byte`) carrying text are modelled as Lean `String`:
the only conversions the source performs are `[]byte(s)` and
`string(b)`, which are mutually inverse and are modelled as the
identity.  A `nil` `*string` pointer is modelled as `none : Option String`.

`encoding/json` is external library code; it is modelled at the level of
parsed JSON values.  `json.Unmarshal(data, &v)` with `v : interface{}`
either fails to parse (leaving `v = nil`) or yields the parsed value,
with JSON `null` also decoding to `nil`.  Accordingly `unmarshalJSON`
takes an `Option Json` argument: `none` models a parse failure of the
input bytes, `some j` models input whose parse is `j` (with `Json.null`
for the literal `null`).  The nested `json.Unmarshal(data, &s.NullString)`
of the object branch is modelled by `decodeNullString`, which follows
`encoding/json` struct decoding: fields are processed in order, keys are
matched case-insensitively against the struct field names `String` and
`Valid`, unknown keys are ignored, a JSON `null` value leaves the target
field unchanged, a value of the wrong type records a type error but
decoding continues, and the first error is reported to the caller.
-/

/-- The pair underlying both `sql.NullString` and the package's `String`
wrapper: `str` models the Go field `String`, `valid` the Go field
`Valid`. -/
structure NullString where
  str : String
  valid : Bool
deriving Repr, DecidableEq

/-- Parsed JSON values, the dynamic shapes `json.Unmarshal` can produce
in an `interface{}`: string, number, boolean, array, object, and the
JSON `null` literal.  The numeric payload is carried as an `Int` since
the source never inspects it. -/
inductive Json where
  | null : Json
  | str (s : String) : Json
  | num (n : Int) : Json
  | bool (b : Bool) : Json
  | arr (xs : List Json) : Json
  | obj (fields : List (String × Json)) : Json
deriving Repr

/-- `NewString` (src/string.go:18): stores `s` and `valid` verbatim, with
no normalization. -/
def NewString (s : String) (valid : Bool) : NullString :=
  { str := s, valid := valid }

/-- `StringFrom` (src/string.go:28): null iff `s` is blank. -/
def StringFrom (s : String) : NullString :=
  NewString s (s != "")

/-- `StringFromPtr` (src/string.go:34): null if the pointer is nil,
otherwise built from the dereferenced string. -/
def StringFromPtr : Option String → NullString
  | none => NewString "" false
  | some s => NewString s (s != "")

/-- ASCII lower-casing of a Unicode code point, used to model
`encoding/json`'s field-name matching (exact match first, then
case-insensitive): for the ASCII struct field names `String` and `Valid`
this exact-or-case-insensitive match is equivalent to comparing the
ASCII-folded key. -/
def asciiLowerNat (n : Nat) : Nat :=
  if 65 ≤ n && n ≤ 90 then n + 32 else n

/-- `encoding/json` key matching against a struct field name: equal up to
ASCII case folding. -/
def keyMatches (key name : String) : Bool :=
  key.data.map (fun c => asciiLowerNat c.toNat) == name.data.map (fun c => asciiLowerNat c.toNat)

/-- One step of `encoding/json` decoding an object field into a
`sql.NullString` target: keys matching `String` (case-insensitively) must
hold a JSON string, keys matching `Valid` must hold a JSON boolean, a
JSON `null` leaves the field unchanged, any other shape records a type
error (decoding continues), and unknown keys are skipped.  The `Bool`
component records whether an error has occurred. -/
def decodeNullStringField (acc : NullString × Bool) (kv : String × Json) : NullString × Bool :=
  if keyMatches kv.1 "String" then
    match kv.2 with
    | .str v => ({ acc.1 with str := v }, acc.2)
    | .null => acc
    | _ => (acc.1, true)
  else if keyMatches kv.1 "Valid" then
    match kv.2 with
    | .bool b => ({ acc.1 with valid := b }, acc.2)
    | .null => acc
    | _ => (acc.1, true)
  else acc

/-- `json.Unmarshal(data, &s.NullString)` on object `data` with parsed
fields `fields`, starting from the receiver state `st`: fields are
processed in order (duplicates overwrite) and the `Bool` result reports
whether a decode error occurred. -/
def decodeNullString (fields : List (String × Json)) (st : NullString) : NullString × Bool :=
  fields.foldl decodeNullStringField (st, false)

/-- `UnmarshalJSON` (src/string.go:45-60).  The argument `v` is the
result of the initial generic parse `json.Unmarshal(data, &v)`: `none`
when the input bytes are not valid JSON (the parse error is discarded
and `v` stays nil), `some j` otherwise.  The Go type switch on `v`:

  - a JSON string sets the value;
  - a JSON object runs the nested `sql.NullString` decode;
  - Go `nil` (JSON `null`, or a discarded parse failure) sets
    `Valid = false` and returns immediately;
  - any other shape (number, boolean, array) matches no case.

After the switch (except the early return) `Valid` is set to
"no error and value non-blank".  The `Bool` result models the returned
error (`true` = non-nil error). -/
def unmarshalJSON (s : NullString) (v : Option Json) : NullString × Bool :=
  match v with
  | some (.str x) =>
    ({ s with str := x, valid := x != "" }, false)
  | some (.obj fields) =>
    ({ (decodeNullString fields s).1 with
        valid := !(decodeNullString fields s).2 && (decodeNullString fields s).1.str != "" },
      (decodeNullString fields s).2)
  | some .null => ({ s with valid := false }, false)
  | none => ({ s with valid := false }, false)
  | some (.num _) => ({ s with valid := s.str != "" }, false)
  | some (.bool _) => ({ s with valid := s.str != "" }, false)
  | some (.arr _) => ({ s with valid := s.str != "" }, false)

/-- `MarshalText` (src/string.go:64-69): empty bytes when null, the raw
bytes of the value otherwise; the error result is always nil (`false`). -/
def marshalText (s : NullString) : String × Bool :=
  if !s.valid then ("", false)
  else (s.str, false)

/-- `UnmarshalText` (src/string.go:73-77): overwrites the receiver with
the input text, valid iff non-blank; never returns an error. -/
def unmarshalText (s : NullString) (text : String) : NullString × Bool :=
  ({ s with str := text, valid := text != "" }, false)

/-- `Ptr` (src/string.go:80-85): nil pointer when null, otherwise a
pointer to the value. -/
def Ptr (s : NullString) : Option String :=
  if !s.valid then none
  else some s.str

/-- `IsZero` (src/string.go:88-90): true for null or empty strings. -/
def IsZero (s : NullString) : Bool :=
  !s.valid || s.str == ""

/-- The zero value of the Go `String` type: empty string, invalid. -/
def zeroString : NullString :=
  { str := "", valid := false }

/-- The "empty implies invalid" invariant as a Boolean predicate on
results: a valid value has a non-blank string. -/
def validImpliesNonempty (s : NullString) : Bool :=
  !s.valid || s.str != ""

/-- Boolean tautology used to show the trailing normalization of
`UnmarshalJSON` always yields a state whose validity entails
non-blankness. -/
theorem bool_not_and_or_right (a b : Bool) : (!(a && b) || b) = true := by
  cases a <;> cases b <;> rfl

/-- C1: for a zero-valued `String` receiver, decoding the literal text
`"hello"` (parsed shape: JSON string "hello") yields Present("hello")
with no error; decoding `""` (JSON empty string) yields Null; decoding
`null` yields Null; decoding `42` (a JSON number) yields Null with no
error raised. -/
theorem unmarshalJSON_zero_shapes :
    unmarshalJSON zeroString (some (Json.str "hello")) = ({ str := "hello", valid := true }, false) ∧
    unmarshalJSON zeroString (some (Json.str "")) = ({ str := "", valid := false }, false) ∧
    unmarshalJSON zeroString (some Json.null) = ({ str := "", valid := false }, false) ∧
    unmarshalJSON zeroString (some (Json.num 42)) = ({ str := "", valid := false }, false) := by
  decide

/-- C2: `UnmarshalJSON` returns an error if and only if the input parses
as a JSON object and the nested `sql.NullString` decode of that object
fails; every other input (string, null, parse failure, number, boolean,
array) returns no error. -/
theorem unmarshalJSON_error_iff (st : NullString) (v : Option Json) :
    (unmarshalJSON st v).2 = true ↔
      ∃ fields, v = some (Json.obj fields) ∧ (decodeNullString fields st).2 = true := by
  cases v with
  | none => simp [unmarshalJSON]
  | some j => cases j <;> simp [unmarshalJSON]

/-- C3 counterexample: the raw constructor `NewString` stores its
arguments verbatim, so `NewString "" true` produces a value with an
empty string and `valid = true`, violating the claimed invariant for
"every constructor". -/
theorem newString_breaks_invariant :
    ¬ (((NewString "" true).str = "") → ((NewString "" true).valid = false)) := by
  decide

/-- C3 amended: every constructor and decoder except the raw
two-argument constructor `NewString` — that is, `StringFrom`,
`StringFromPtr`, `UnmarshalJSON` and `UnmarshalText` — produces a value
satisfying the invariant that `valid = true` implies the string is
non-blank (equivalently, a blank string is never marked valid). -/
theorem constructors_decoders_normalize (s text : String) (p : Option String)
    (st : NullString) (v : Option Json) :
    validImpliesNonempty (StringFrom s) = true ∧
    validImpliesNonempty (StringFromPtr p) = true ∧
    validImpliesNonempty (unmarshalJSON st v).1 = true ∧
    validImpliesNonempty (unmarshalText st text).1 = true := by
  refine ⟨?_, ?_, ?_, ?_⟩
  · cases h : (s != "") <;> simp [validImpliesNonempty, StringFrom, NewString, h]
  · cases p with
    | none => decide
    | some q => cases h : (q != "") <;> simp [validImpliesNonempty, StringFromPtr, NewString, h]
  · cases v with
    | none => simp [validImpliesNonempty, unmarshalJSON]
    | some j =>
      cases j with
      | str x => cases h : (x != "") <;> simp [validImpliesNonempty, unmarshalJSON, h]
      | obj fields =>
        simp only [validImpliesNonempty, unmarshalJSON]
        exact bool_not_and_or_right _ _
      | null => simp [validImpliesNonempty, unmarshalJSON]
      | num n => cases h : (st.str != "") <;> simp [validImpliesNonempty, unmarshalJSON, h]
      | bool b => cases h : (st.str != "") <;> simp [validImpliesNonempty, unmarshalJSON, h]
      | arr xs => cases h : (st.str != "") <;> simp [validImpliesNonempty, unmarshalJSON, h]
  · cases h : (text != "") <;> simp [validImpliesNonempty, unmarshalText, h]

/-- C4: from a zero receiver, decoding the structured object
`{"String":"abc","Valid":true}` yields Present("abc") with no error, and
decoding `{"String":"","Valid":true}` yields Null: the post-branch
normalization overrides the nested `Valid` flag when the decoded string
is empty. -/
theorem unmarshalJSON_structured_obj :
    unmarshalJSON zeroString (some (Json.obj [("String", Json.str "abc"), ("Valid", Json.bool true)])) =
      ({ str := "abc", valid := true }, false) ∧
    unmarshalJSON zeroString (some (Json.obj [("String", Json.str ""), ("Valid", Json.bool true)])) =
      ({ str := "", valid := false }, false) := by
  decide

/-- C5: after a successful structured-object decode, validity is exactly
non-blankness of the decoded string, so the nested `Valid` flag is also
overridden upward: `{"String":"x","Valid":false}` yields Present("x"),
and in general an error-free object decode sets `valid` to
`str != ""`. -/
theorem unmarshalJSON_obj_valid (st : NullString) (fields : List (String × Json)) :
    unmarshalJSON zeroString (some (Json.obj [("String", Json.str "x"), ("Valid", Json.bool false)])) =
      ({ str := "x", valid := true }, false) ∧
    ((unmarshalJSON st (some (Json.obj fields))).2 = false →
      (unmarshalJSON st (some (Json.obj fields))).1.valid =
        ((unmarshalJSON st (some (Json.obj fields))).1.str != "")) := by
  constructor
  · decide
  · intro h
    simp only [unmarshalJSON] at h ⊢
    simp [h]

/-- C5 witness: the general normalization fact instantiated at the
concrete structured object `{"String":"x","Valid":false}`. -/
theorem unmarshalJSON_obj_valid_witness :
    (unmarshalJSON zeroString (some (Json.obj [("String", Json.str "x"), ("Valid", Json.bool false)]))).1.valid =
      ((unmarshalJSON zeroString (some (Json.obj [("String", Json.str "x"), ("Valid", Json.bool false)]))).1.str != "") :=
  (unmarshalJSON_obj_valid zeroString [("String", Json.str "x"), ("Valid", Json.bool false)]).2 (by decide)

/-- C6: the error of the initial generic parse is discarded: for input
that is not syntactically valid JSON (e.g. the bytes `{` or `not json`,
modelled by a `none` parse result), the generic value stays nil, the nil
branch of the type switch runs, the receiver becomes Null (`valid =
false`, string unchanged), and no error is returned. -/
theorem unmarshalJSON_parse_failure_silent (st : NullString) :
    unmarshalJSON st none = ({ st with valid := false }, false) := by
  rfl

/-- C7: text round-trip.  For any Present value with a non-blank string,
`MarshalText` followed by `UnmarshalText` (into any receiver) reproduces
the same value; for any Null value, `MarshalText` produces empty bytes,
and `UnmarshalText` on empty bytes produces a Null result. -/
theorem text_roundtrip (s r : NullString) :
    (s.valid = true → s.str ≠ "" → (unmarshalText r (marshalText s).1).1 = s) ∧
    (s.valid = false → (marshalText s).1 = "") ∧
    (unmarshalText r "").1.valid = false := by
  obtain ⟨sv, vv⟩ := s
  refine ⟨?_, ?_, ?_⟩
  · intro hv hs
    subst hv
    simp only at hs
    simp [marshalText, unmarshalText, hs]
  · intro hv
    subst hv
    simp [marshalText]
  · simp [unmarshalText]

/-- C7 witness: the round-trip at the concrete Present value "a" and the
Null behaviour at the concrete Null value `NewString "" false`. -/
theorem text_roundtrip_witness :
    (unmarshalText zeroString (marshalText (NewString "a" true)).1).1 = NewString "a" true ∧
    (marshalText (NewString "" false)).1 = "" ∧
    (unmarshalText zeroString "").1.valid = false :=
  ⟨(text_roundtrip (NewString "a" true) zeroString).1 rfl (by decide),
   (text_roundtrip (NewString "" false) zeroString).2.1 rfl,
   (text_roundtrip (NewString "" false) zeroString).2.2⟩

/-- C8: `MarshalText` returns empty bytes and no error when the value is
null, returns exactly the raw bytes of the value and no error when it is
valid, and never returns an error. -/
theorem marshalText_spec (s : NullString) :
    (s.valid = false → marshalText s = ("", false)) ∧
    (s.valid = true → marshalText s = (s.str, false)) ∧
    (marshalText s).2 = false := by
  obtain ⟨sv, vv⟩ := s
  cases vv <;> simp [marshalText]

/-- C8 witness: `MarshalText` evaluated on a concrete Null value and on a
concrete valid value. -/
theorem marshalText_spec_witness :
    marshalText (NewString "" false) = ("", false) ∧
    marshalText (NewString "hi" true) = ("hi", false) :=
  ⟨(marshalText_spec (NewString "" false)).1 rfl,
   (marshalText_spec (NewString "hi" true)).2.1 rfl⟩

/-- C9: for every string `s`, `Ptr (StringFrom s)` is the nil pointer
when `s` is blank, and otherwise a non-nil pointer dereferencing to
`s`. -/
theorem ptr_of_stringFrom (s : String) :
    (s = "" → Ptr (StringFrom s) = none) ∧
    (s ≠ "" → Ptr (StringFrom s) = some s) := by
  constructor
  · intro h
    subst h
    rfl
  · intro h
    simp [Ptr, StringFrom, NewString, h]

/-- C9 witness: `Ptr ∘ StringFrom` evaluated at the blank string and at
the concrete string "x". -/
theorem ptr_of_stringFrom_witness :
    Ptr (StringFrom "") = none ∧ Ptr (StringFrom "x") = some "x" :=
  ⟨(ptr_of_stringFrom "").1 rfl, (ptr_of_stringFrom "x").2 (by decide)⟩

/-- C10: `IsZero` is true exactly when the value is null or the string is
empty; in particular it is true for the non-normalized value
`NewString "" true`. -/
theorem isZero_iff (s : NullString) :
    (IsZero s = true ↔ (s.valid = false ∨ s.str = "")) ∧
    IsZero (NewString "" true) = true := by
  constructor
  · simp [IsZero]
  · decide
